import Mathlib

/-!
Verification of the SiliconFlow key-scanner repository against its
natural-language specification.

The development shallowly embeds the Python sources:
  * `src/app/hajimi_king.py`        — `SiliconFlowValidator.validate_key`,
    `GitHubScanner.should_skip_file`, `GitHubScanner.extract_api_keys`,
    `GitHubScanner.save_to_files`, `GitHubScanner.validate_and_save_key`,
    `GitHubScanner.process_search_result`, `GitHubScanner.save_scanned_sha`.
  * `src/app/siliconflow_validator.py` — the second `validate_key` variant.
  * `src/utils/file_manager.py`     — `Checkpoint` and `FileManager`
    (load/save of the checkpoint metadata and the scanned-sha flat file).

Network calls (the GitHub search, the raw-content fetch, the vendor probe)
are passed in as explicit oracle functions; file-system effects are made
explicit as state records.  Machine behaviour of the `json` module is
modelled as the identity on the serialized dictionary (JSON round-trips the
dictionaries written here), with a truncated / not-yet-written file modelled
as an unparsable content on which `json.load` raises.
-/

namespace SFScan

/-- `s.startswith(p)` on character lists (Lean's `String.startsWith` is
byte-position based and does not reduce in the kernel, so the embedding
uses the equivalent character-level test throughout). -/
def startsWithL (pre s : List Char) : Bool := pre.isPrefixOf s

/-! ## Probe outcomes and the two key validators -/

/-- Result of one HTTPS probe of the vendor endpoint, as distinguished by the
`try/except` structure of `validate_key`: a transport success carrying an
HTTP status code, a timeout, or any other request exception. -/
inductive ProbeOutcome
  | httpStatus (code : Nat)
  | timedOut
  | requestError
deriving DecidableEq, Repr

/-- Result dictionary of `SiliconFlowValidator.validate_key` in
`src/app/hajimi_king.py` (fields `is_valid` and `rate_limited`), extended
with a `probed` flag recording whether the network request at
hajimi_king.py:69 was issued at all. -/
structure ValidationResult where
  is_valid : Bool
  rate_limited : Bool
  probed : Bool
deriving DecidableEq, Repr

/-- `SiliconFlowValidator.validate_key` from `src/app/hajimi_king.py`
(lines 43-127).  Keys not starting with `"sk-"` are rejected before any
request is made; otherwise the HTTP status of the probe is dispatched in
source order 200 / 401 / 429 / 403 / other, and both exception branches
return an invalid, non-rate-limited result. -/
def validate_key (api_key : String) (probe : ProbeOutcome) : ValidationResult :=
  if ¬ startsWithL "sk-".data api_key.data then
    { is_valid := false, rate_limited := false, probed := false }
  else
    match probe with
    | .httpStatus 200 => { is_valid := true, rate_limited := false, probed := true }
    | .httpStatus 401 => { is_valid := false, rate_limited := false, probed := true }
    | .httpStatus 429 => { is_valid := true, rate_limited := true, probed := true }
    | .httpStatus 403 => { is_valid := false, rate_limited := false, probed := true }
    | .httpStatus _ => { is_valid := false, rate_limited := false, probed := true }
    | .timedOut => { is_valid := false, rate_limited := false, probed := true }
    | .requestError => { is_valid := false, rate_limited := false, probed := true }

/-- Result dictionary of `SiliconFlowValidator.validate_key` in
`src/app/siliconflow_validator.py` (lines 16-88), which has no
`rate_limited` field; `probed` records whether the request at line 49 was
issued. -/
structure SFVResult where
  is_valid : Bool
  probed : Bool
deriving DecidableEq, Repr

/-- `SiliconFlowValidator.validate_key` from
`src/app/siliconflow_validator.py`: prefix check first, then status
dispatch 200 / 401 / 429 / other; the single `RequestException` handler
(which also catches timeouts) returns invalid. -/
def validate_key_sfv (api_key : String) (probe : ProbeOutcome) : SFVResult :=
  if ¬ startsWithL "sk-".data api_key.data then
    { is_valid := false, probed := false }
  else
    match probe with
    | .httpStatus 200 => { is_valid := true, probed := true }
    | .httpStatus 401 => { is_valid := false, probed := true }
    | .httpStatus 429 => { is_valid := true, probed := true }
    | .httpStatus _ => { is_valid := false, probed := true }
    | .timedOut => { is_valid := false, probed := true }
    | .requestError => { is_valid := false, probed := true }

/-! ## The local recording channels (`GitHubScanner.save_to_files`) -/

/-- Which pair of local files `GitHubScanner.save_to_files`
(hajimi_king.py lines 490-528) appends the finding to: the valid-key files,
the rate-limited (429) files, or none (invalid keys are not written). -/
inductive SaveChannel
  | validChannel
  | rateLimitedChannel
  | noSave
deriving DecidableEq, Repr

/-- Channel selection of `GitHubScanner.save_to_files`:
`if result.is_valid and not rate_limited: ... elif rate_limited: ...
else: return`. -/
def save_to_files (is_valid rate_limited : Bool) : SaveChannel :=
  if is_valid && !rate_limited then .validChannel
  else if rate_limited then .rateLimitedChannel
  else .noSave

/-! ## Candidate extraction (`GitHubScanner.extract_api_keys`) -/

/-- Character class `[A-Za-z0-9]` of the key pattern
`re.compile(r'sk-[A-Za-z0-9]\x7b20,\x7d')` at hajimi_king.py:201. -/
def skAlnum (c : Char) : Bool := c.isAlpha || c.isDigit

/-- `re.findall` of the pattern `sk-[A-Za-z0-9]\x7b20,\x7d` over the character
list: at each position the engine tries the literal `sk-` followed by a
greedy run of at least 20 alphanumerics; on success it emits the match and
resumes after it, on failure it advances one character.  The scan consumes
at least one character per step, so `fuel` equal to the input length
suffices; the fuel argument only makes the recursion structural. -/
def scanKeysFuel : Nat → List Char → List String
  | 0, _ => []
  | _ + 1, [] => []
  | fuel + 1, 's' :: 'k' :: '-' :: rest =>
    let run := rest.takeWhile skAlnum
    if 20 ≤ run.length then
      (⟨'s' :: 'k' :: '-' :: run⟩ : String) :: scanKeysFuel fuel (rest.drop run.length)
    else
      scanKeysFuel fuel ('k' :: '-' :: rest)
  | fuel + 1, _ :: cs => scanKeysFuel fuel cs

/-- All raw matches of the key pattern in `content`
(`self.api_key_pattern.findall(content)` at hajimi_king.py:429). -/
def findallKeys (content : String) : List String :=
  scanKeysFuel content.data.length content.data

/-- The dedup-and-filter loop of `extract_api_keys` (hajimi_king.py
lines 432-438): keep a key only if it was not seen before within this
content and its length is at least 25; only kept keys enter `seen`. -/
def dedupFilter : List String → List String → List String
  | [], _ => []
  | k :: ks, seen =>
    if k ∉ seen ∧ 25 ≤ k.length then k :: dedupFilter ks (k :: seen)
    else dedupFilter ks seen

/-- `GitHubScanner.extract_api_keys` (hajimi_king.py lines 423-440):
falsy (empty) content yields no keys; otherwise the regex matches are
deduplicated and length-filtered in order of first occurrence. -/
def extract_api_keys (content : String) : List String :=
  if content.isEmpty then []
  else dedupFilter (findallKeys content) []

/-! ## Path blacklist (`GitHubScanner.should_skip_file`) -/

/-- Boolean substring test, the semantics of Python's
`blacklist_item in file_path_lower`. -/
def isSubOf (needle : List Char) : List Char → Bool
  | [] => needle.isEmpty
  | c :: t => needle.isPrefixOf (c :: t) || isSubOf needle t

/-- `GitHubScanner.should_skip_file` (hajimi_king.py lines 328-336): the
path is lowercased and skipped when any blacklist item occurs in it as a
substring. -/
def should_skip_file (blacklist : List String) (file_path : String) : Bool :=
  blacklist.any (fun b => isSubOf b.data file_path.toLower.data)

/-! ## The per-artifact pipeline (`GitHubScanner.process_search_result`) -/

/-- A GitHub code-search hit, with the fields of the `item` dictionary that
`process_search_result` reads. -/
structure SearchItem where
  sha : String
  path : String
  html_url : String
  repo_full_name : String
  updated_at : String
deriving DecidableEq, Repr

/-- The mutable state of `GitHubScanner` that the per-artifact pipeline
touches, with explicit effect logs: `scanned_shas` is the in-memory set,
`sha_file` the growing flat file of `save_scanned_sha`, `fetched_urls`
records every raw-content fetch issued, `validated_keys` every key sent to
the validator, and `recorded_valid` / `recorded_rate_limited` the keys
appended to the two `save_to_files` channels. -/
structure ScannerState where
  scanned_shas : Finset String
  sha_file : List String
  fetched_urls : List String
  validated_keys : List String
  recorded_valid : List String
  recorded_rate_limited : List String
deriving DecidableEq

/-- The empty scanner state. -/
def ScannerState.initial : ScannerState :=
  { scanned_shas := ∅, sha_file := [], fetched_urls := [],
    validated_keys := [], recorded_valid := [], recorded_rate_limited := [] }

/-- `GitHubScanner.save_scanned_sha` (hajimi_king.py lines 271-279): add to
the in-memory set and append one line to the flat file. -/
def save_scanned_sha (st : ScannerState) (sha : String) : ScannerState :=
  { st with scanned_shas := insert sha st.scanned_shas,
            sha_file := st.sha_file ++ [sha] }

/-- `GitHubScanner.validate_and_save_key` (hajimi_king.py lines 442-467)
restricted to its observable effects: probe the key, then route it through
the `save_to_files` channel selection.  The quota lookup for valid keys and
the SQLite insert only enrich the recorded detail and are plumbing here.
Returns the updated state and `result.is_valid`. -/
def validate_and_save_key (probe : String → ProbeOutcome) (st : ScannerState)
    (key : String) : ScannerState × Bool :=
  let v := validate_key key (probe key)
  let st := { st with validated_keys := st.validated_keys ++ [key] }
  let st :=
    match save_to_files v.is_valid v.rate_limited with
    | .validChannel => { st with recorded_valid := st.recorded_valid ++ [key] }
    | .rateLimitedChannel =>
      { st with recorded_rate_limited := st.recorded_rate_limited ++ [key] }
    | .noSave => st
  (st, v.is_valid)

/-- The `for api_key in api_keys` loop of `process_search_result`
(hajimi_king.py lines 558-577), counting keys for which
`validate_and_save_key` returned true. -/
def processKeys (probe : String → ProbeOutcome) :
    ScannerState → List String → ScannerState × Nat
  | st, [] => (st, 0)
  | st, k :: ks =>
    let r := validate_and_save_key probe st k
    let rest := processKeys probe r.1 ks
    (rest.1, (if r.2 then 1 else 0) + rest.2)

/-- The distinct return points of `process_search_result`: the sha-dedup
skip at line 534, the blacklist skip at line 538, the missing-content drop
at line 546, the no-keys return at line 553 (which does mark the sha), and
the full processing path returning the valid count. -/
inductive ProcessOutcome
  | shaDuplicate
  | blacklistedPath
  | fetchFailed
  | noKeysFound
  | processed (valid_count : Nat)
deriving DecidableEq, Repr

/-- `GitHubScanner.process_search_result` (hajimi_king.py lines 530-584).
The raw-content fetch is the oracle `fetch` (returning `none` for any
non-200 response or transport error), the vendor probe is the oracle
`probe`.  `if not content` treats both an absent and an empty body as a
drop. -/
def process_search_result (blacklist : List String)
    (fetch : String → Option String) (probe : String → ProbeOutcome)
    (st : ScannerState) (item : SearchItem) : ScannerState × ProcessOutcome :=
  if item.sha ∈ st.scanned_shas then (st, .shaDuplicate)
  else if should_skip_file blacklist item.path then (st, .blacklistedPath)
  else
    let raw_url := item.html_url.replace "/blob/" "/raw/"
    let st := { st with fetched_urls := st.fetched_urls ++ [raw_url] }
    match fetch raw_url with
    | none => (st, .fetchFailed)
    | some content =>
      if content.isEmpty then (st, .fetchFailed)
      else
        let api_keys := extract_api_keys content
        if api_keys.isEmpty then (save_scanned_sha st item.sha, .noKeysFound)
        else
          let r := processKeys probe st api_keys
          (save_scanned_sha r.1 item.sha, .processed r.2)

/-! ## Text-file plumbing shared by the checkpoint store

Python file iteration splits the content on newline characters, and
`str.strip()` removes the whitespace characters at both ends.  We model
file contents as their character lists. -/

/-- The whitespace class of Python's `str.strip()`. -/
def pySpace (c : Char) : Bool :=
  c = ' ' || c = '\t' || c = '\n' || c = '\r' || c = '\x0b' || c = '\x0c'

/-- `str.strip()` on a character list. -/
def pyStripL (l : List Char) : List Char :=
  ((l.dropWhile pySpace).reverse.dropWhile pySpace).reverse

/-- `line.startswith('#')` on a character list. -/
def startsHash : List Char → Bool
  | '#' :: _ => true
  | _ => false

/-- Splitting a file's character content at newline characters, the way
iterating over a Python text file (plus the later `strip`) observes it. -/
def splitLinesAux : List Char → List (List Char)
  | [] => [[]]
  | c :: cs =>
    if c = '\n' then [] :: splitLinesAux cs
    else
      match splitLinesAux cs with
      | [] => [[c]]
      | l :: ls => (c :: l) :: ls

/-- The content produced by a sequence of `f.write(line + "\n")` calls. -/
def joinLinesL (ls : List (List Char)) : List Char :=
  ls.foldr (fun l acc => l ++ '\n' :: acc) []

/-- `joinLinesL`, writing whole strings. -/
def write_lines (ls : List String) : String := ⟨joinLinesL (ls.map String.data)⟩

/-! ## The checkpoint store (`src/utils/file_manager.py`) -/

/-- The `Checkpoint` dataclass (file_manager.py lines 12-49).  Python sets
become `Finset String`. -/
structure Checkpoint where
  last_scan_time : Option String := none
  scanned_shas : Finset String := ∅
  processed_queries : Finset String := ∅
  wait_send_balancer : Finset String := ∅
  wait_send_gpt_load : Finset String := ∅
deriving DecidableEq

/-- The dictionary written to `checkpoint.json` by `Checkpoint.to_dict`
(file_manager.py lines 20-27); it deliberately omits `scanned_shas`. -/
structure CheckpointDict where
  last_scan_time : Option String
  processed_queries : List String
  wait_send_balancer : List String
  wait_send_gpt_load : List String
deriving DecidableEq

/-- `Checkpoint.to_dict`.  Python's `list(s)` enumerates the set in an
unspecified order; we fix the canonical sorted enumeration, which is one of
the permitted behaviours and the only one a pure model can name. -/
def Checkpoint.to_dict (cp : Checkpoint) : CheckpointDict :=
  { last_scan_time := cp.last_scan_time
    processed_queries := cp.processed_queries.sort (· ≤ ·)
    wait_send_balancer := cp.wait_send_balancer.sort (· ≤ ·)
    wait_send_gpt_load := cp.wait_send_gpt_load.sort (· ≤ ·) }

/-- `Checkpoint.from_dict` (file_manager.py lines 29-38): rebuild the sets
from the stored lists; `scanned_shas` is left empty, to be loaded from the
flat file by `FileManager.load_checkpoint`. -/
def Checkpoint.from_dict (d : CheckpointDict) : Checkpoint :=
  { last_scan_time := d.last_scan_time
    scanned_shas := ∅
    processed_queries := d.processed_queries.toFinset
    wait_send_balancer := d.wait_send_balancer.toFinset
    wait_send_gpt_load := d.wait_send_gpt_load.toFinset }

/-- `Checkpoint.add_scanned_sha` (file_manager.py lines 40-42): only a
truthy (non-empty) sha is added. -/
def Checkpoint.add_scanned_sha (cp : Checkpoint) (sha : String) : Checkpoint :=
  if sha = "" then cp
  else { cp with scanned_shas := insert sha cp.scanned_shas }

/-- `Checkpoint.add_processed_query` (file_manager.py lines 44-46). -/
def Checkpoint.add_processed_query (cp : Checkpoint) (q : String) : Checkpoint :=
  if q = "" then cp
  else { cp with processed_queries := insert q cp.processed_queries }

/-- `Checkpoint.update_scan_time` (file_manager.py lines 48-49); the wall
clock is an explicit argument. -/
def Checkpoint.update_scan_time (cp : Checkpoint) (now : String) : Checkpoint :=
  { cp with last_scan_time := some now }

/-- State of `checkpoint.json` on disk: missing, present but not valid JSON
(in particular a file truncated by `open(..., "w")` before `json.dump`
completed, on which `json.load` raises), or holding a stored dictionary.
JSON (de)serialization itself is external-library plumbing and is modelled
as the identity on the dictionary. -/
inductive CkptFileState
  | missing
  | unparsable
  | stored (d : CheckpointDict)
deriving DecidableEq

/-- The two persisted files the checkpoint store owns
(file_manager.py lines 66-67): `checkpoint.json` and the scanned-sha flat
file (`none` = file missing, `some c` = file with content `c`). -/
structure FsState where
  checkpoint_file : CkptFileState
  scanned_shas_file : Option String
deriving DecidableEq

/-- The content written by `FileManager.save_scanned_shas`
(file_manager.py lines 250-261): three `#` comment lines (the third
carrying the wall-clock time), a blank line, then one line per sha in
sorted order. -/
def save_scanned_shas_content (now : String) (shas : Finset String) : String :=
  write_lines
    (["# 已扫描的文件SHA列表 - SiliconFlow Key Scanner",
      "# 每行一个SHA，用于避免重复扫描",
      "# 最后更新时间: " ++ now,
      ""] ++ shas.sort (· ≤ ·))

/-- The line loop of `FileManager.load_scanned_shas` (file_manager.py
lines 194-212): strip each line, keep it when non-empty and not a `#`
comment. -/
def parse_sha_lines (content : String) : List String :=
  (((splitLinesAux content.data).map pyStripL).filter
    (fun l => !l.isEmpty && !startsHash l)).map (fun l => (⟨l⟩ : String))

/-- `FileManager.load_scanned_shas`: a missing file loads as the empty set;
errors while reading also yield the empty set. -/
def load_scanned_shas (fs : FsState) : Finset String :=
  match fs.scanned_shas_file with
  | none => ∅
  | some content => (parse_sha_lines content).toFinset

/-- `FileManager.save_checkpoint` (file_manager.py lines 238-248), final
file-system state: first `save_scanned_shas` rewrites the flat file, then
`checkpoint.json` is rewritten with `to_dict`.  (The local
`checkpoint = self.load_checkpoint()` rebinding at line 246 has no effect
on the caller's object.) -/
def save_checkpoint (now : String) (cp : Checkpoint) : FsState :=
  { checkpoint_file := .stored cp.to_dict
    scanned_shas_file := some (save_scanned_shas_content now cp.scanned_shas) }

/-- `FileManager.load_checkpoint` (file_manager.py lines 174-192): a
missing or unreadable `checkpoint.json` yields a fresh `Checkpoint()`
(the write-back of a fresh file in the missing case does not change the
returned value); then `scanned_shas` is loaded from the flat file. -/
def load_checkpoint (fs : FsState) : Checkpoint :=
  let base : Checkpoint :=
    match fs.checkpoint_file with
    | .stored d => Checkpoint.from_dict d
    | _ => {}
  { base with scanned_shas := load_scanned_shas fs }

/-- The sequence of file-system states a concurrent reader (or a crash) can
observe during `FileManager.save_checkpoint`: both files are opened with
mode `"w"`, which truncates the destination in place before the new content
is written — there is no temporary file and no rename anywhere in
`save_checkpoint` / `save_scanned_shas`.  States: initial; flat file
truncated; flat file written; `checkpoint.json` truncated (an empty file is
not valid JSON); `checkpoint.json` written. -/
def save_checkpoint_trace (now : String) (cp : Checkpoint) (fs : FsState) :
    List FsState :=
  let shaContent := save_scanned_shas_content now cp.scanned_shas
  [fs,
   { fs with scanned_shas_file := some "" },
   { fs with scanned_shas_file := some shaContent },
   { checkpoint_file := .unparsable, scanned_shas_file := some shaContent },
   { checkpoint_file := .stored cp.to_dict, scanned_shas_file := some shaContent }]

/-- A well-behaved scanned-artifact identifier: non-empty, not shaped like
a `#` comment line, fixed by `strip`, and newline-free.  Real GitHub file
shas (hexadecimal strings) all satisfy this. -/
def clean_sha (s : String) : Prop :=
  s.data ≠ [] ∧ startsHash s.data = false ∧ pyStripL s.data = s.data ∧ '\n' ∉ s.data

instance (s : String) : Decidable (clean_sha s) := by
  unfold clean_sha; infer_instance

/-- The checkpoint-state operations named by the spec's CheckpointStore
contract, as implemented on the in-memory `Checkpoint`:
`markArtifactScanned`, `markQueryProcessed`, `touchScanTime`, and `save`
(which persists to disk and leaves the in-memory object unchanged). -/
inductive CkOp
  | addSha (sha : String)
  | addQuery (q : String)
  | touchTime (now : String)
  | saveOp (now : String)
deriving DecidableEq

/-- Effect of a `CkOp` on the in-memory checkpoint. -/
def applyCkOp (op : CkOp) (cp : Checkpoint) : Checkpoint :=
  match op with
  | .addSha sha => cp.add_scanned_sha sha
  | .addQuery q => cp.add_processed_query q
  | .touchTime now => cp.update_scan_time now
  | .saveOp _ => cp

/-! ## QueryNormalizer -/

/-- Modelled from the spec: the repository sources contain no
`QueryNormalizer`; spec §4.1 is its only definition.  Tokenizer per §4.1:
whitespace runs separate tokens, a double-quoted phrase is one atomic token
(quotes included), and "a quote that is never closed is treated as a
literal single-character token".  The fuel argument only makes the
recursion structural; fuel equal to the input length suffices, since every
step consumes at least one character. -/
def tokenizeFuel : Nat → List Char → List String
  | 0, _ => []
  | _ + 1, [] => []
  | fuel + 1, c :: cs =>
    if pySpace c then tokenizeFuel fuel cs
    else if c = '"' then
      let body := cs.takeWhile (fun d => !(d = '"'))
      if body.length < cs.length then
        (⟨'"' :: (body ++ ['"'])⟩ : String) ::
          tokenizeFuel fuel (cs.drop (body.length + 1))
      else (⟨['"']⟩ : String) :: tokenizeFuel fuel cs
    else
      let w := cs.takeWhile (fun d => !pySpace d && !(d = '"'))
      (⟨c :: w⟩ : String) :: tokenizeFuel fuel (cs.drop w.length)

/-- Modelled from the spec: tokenization of a raw query string (§4.1). -/
def tokenize (q : String) : List String :=
  tokenizeFuel q.data.length q.data

/-- Modelled from the spec: the five token buckets of §4.1. -/
inductive TokenClass
  | quotedTok
  | bareTok
  | languageTok
  | filenameTok
  | pathTok
deriving DecidableEq, Repr

/-- Modelled from the spec: bucket classification of §4.1 — quoted phrases,
then the `language:` / `filename:` / `path:` qualifiers, and bare terms
otherwise. -/
def classifyToken (t : String) : TokenClass :=
  if startsWithL "\"".data t.data then .quotedTok
  else if startsWithL "language:".data t.data then .languageTok
  else if startsWithL "filename:".data t.data then .filenameTok
  else if startsWithL "path:".data t.data then .pathTok
  else .bareTok

/-- Lexicographic sorting of one bucket. -/
def sortBucket (ts : List String) : List String :=
  ts.insertionSort (· ≤ ·)

/-- The tokens of one bucket, in their original order. -/
def bucketOf (ts : List String) (c : TokenClass) : List String :=
  ts.filter (fun t => classifyToken t = c)

/-- Modelled from the spec: `normalize` of §4.1 — tokenize, bucket into the
fixed order (quoted, bare, language, filename, path), sort each bucket
lexicographically, join with single spaces.  A total computable function:
defined for every input string, malformed quoting included. -/
def normalize (q : String) : String :=
  let ts := tokenize q
  String.intercalate " "
    (sortBucket (bucketOf ts .quotedTok) ++ sortBucket (bucketOf ts .bareTok) ++
     sortBucket (bucketOf ts .languageTok) ++ sortBucket (bucketOf ts .filenameTok) ++
     sortBucket (bucketOf ts .pathTok))

/-! ## Helper lemmas -/

/-- Every element produced by the dedup loop is absent from its `seen`
accumulator. -/
theorem dedupFilter_not_mem_seen :
    ∀ (ks seen : List String) (x : String), x ∈ dedupFilter ks seen → x ∉ seen := by
  intro ks
  induction ks with
  | nil => intro seen x h; simp [dedupFilter] at h
  | cons k ks ih =>
    intro seen x h
    unfold dedupFilter at h
    split at h
    case isTrue hc =>
      rcases List.mem_cons.mp h with rfl | hm
      · exact hc.1
      · intro hxseen
        exact ih (k :: seen) x hm (List.mem_cons_of_mem _ hxseen)
    case isFalse hc => exact ih seen x h

/-- The dedup loop never emits a key twice. -/
theorem dedupFilter_nodup : ∀ (ks seen : List String), (dedupFilter ks seen).Nodup := by
  intro ks
  induction ks with
  | nil => intro seen; simp [dedupFilter]
  | cons k ks ih =>
    intro seen
    unfold dedupFilter
    split
    · refine List.nodup_cons.mpr ⟨?_, ih _⟩
      intro hmem
      exact dedupFilter_not_mem_seen ks (k :: seen) k hmem (List.mem_cons_self k seen)
    · exact ih seen

/-- Splitting a joined line at its first newline. -/
theorem splitLinesAux_append (l r : List Char) (hl : '\n' ∉ l) :
    splitLinesAux (l ++ '\n' :: r) = l :: splitLinesAux r := by
  induction l with
  | nil => simp [splitLinesAux]
  | cons c t ih =>
    have hc : c ≠ '\n' := fun h => hl (h ▸ List.mem_cons_self c t)
    have ht : '\n' ∉ t := fun h => hl (List.mem_cons_of_mem c h)
    simp only [List.cons_append, splitLinesAux, if_neg hc, List.append_eq]
    rw [ih ht]

/-- Re-reading a file written line by line recovers the lines (plus the
empty final fragment), provided no line contains a newline itself. -/
theorem splitLinesAux_joinLinesL (ls : List (List Char))
    (h : ∀ l ∈ ls, '\n' ∉ l) :
    splitLinesAux (joinLinesL ls) = ls ++ [[]] := by
  induction ls with
  | nil => rfl
  | cons l t ih =>
    have hl := h l (List.mem_cons_self l t)
    have ht : ∀ x ∈ t, '\n' ∉ x := fun x hx => h x (List.mem_cons_of_mem l hx)
    show splitLinesAux (l ++ '\n' :: joinLinesL t) = (l :: t) ++ [[]]
    rw [splitLinesAux_append l _ hl, ih ht]
    rfl

/-- `dropWhile` ignores a trailing element the predicate rejects. -/
theorem dropWhile_append_one (p : Char → Bool) (c : Char) (h : p c = false)
    (xs : List Char) : (xs ++ [c]).dropWhile p = xs.dropWhile p ++ [c] := by
  induction xs with
  | nil => simp [List.dropWhile, h]
  | cons x t ih => by_cases hx : p x <;> simp [List.dropWhile, hx, ih]

/-- Stripping a line whose first character is not whitespace keeps that
character in front. -/
theorem pyStripL_cons_of_not_space (c : Char) (t : List Char) (h : pySpace c = false) :
    pyStripL (c :: t) = c :: (t.reverse.dropWhile pySpace).reverse := by
  unfold pyStripL
  have h1 : (c :: t).dropWhile pySpace = c :: t := by simp [List.dropWhile, h]
  rw [h1, List.reverse_cons, dropWhile_append_one pySpace c h, List.reverse_append]
  rfl

theorem startsHash_cons_hash (t : List Char) : startsHash ('#' :: t) = true := rfl

/-- A line starting with `#` is never kept by the sha-file line filter,
whatever follows the `#`. -/
theorem keep_hash_false (t : List Char) :
    (!(pyStripL ('#' :: t)).isEmpty && !startsHash (pyStripL ('#' :: t))) = false := by
  rw [pyStripL_cons_of_not_space '#' t (by decide)]
  rw [startsHash_cons_hash]
  simp

/-- A clean sha line passes the sha-file line filter. -/
theorem keep_clean (s : String) (h : clean_sha s) :
    (!(s.data).isEmpty && !startsHash s.data) = true := by
  have hie : s.data.isEmpty = false := by
    cases hd : s.data with
    | nil => exact absurd hd h.1
    | cons c t => rfl
  rw [hie, h.2.1]
  rfl

theorem map_mk_data (l : List String) :
    (l.map String.data).map (fun d => (⟨d⟩ : String)) = l := by
  induction l with
  | nil => rfl
  | cons s t ih => rw [List.map_cons, List.map_cons, ih]

/-- Reading back the flat sha file written by `save_scanned_shas` recovers
exactly the sorted sha list, when the timestamp is newline-free and every
sha is clean: the three header lines and the blank line are filtered out,
and each sha line strips to itself. -/
theorem load_save_scanned_shas (now : String) (shas : Finset String)
    (hnow : '\n' ∉ now.data)
    (hclean : ∀ s ∈ shas, clean_sha s) :
    parse_sha_lines (save_scanned_shas_content now shas) = shas.sort (· ≤ ·) := by
  unfold save_scanned_shas_content parse_sha_lines write_lines
  have hnl : ∀ l ∈ (["# 已扫描的文件SHA列表 - SiliconFlow Key Scanner",
      "# 每行一个SHA，用于避免重复扫描",
      "# 最后更新时间: " ++ now, ""] ++ shas.sort (· ≤ ·)).map String.data, '\n' ∉ l := by
    intro l hl
    rcases List.mem_map.mp hl with ⟨s, hs, rfl⟩
    rcases List.mem_append.mp hs with hh | hsha
    · fin_cases hh
      · decide
      · decide
      · rw [String.data_append]
        intro hmem
        rcases List.mem_append.mp hmem with h1 | h2
        · revert h1; decide
        · exact hnow h2
      · decide
    · exact ((hclean s) ((Finset.mem_sort _).mp hsha)).2.2.2
  have hsplit : splitLinesAux (joinLinesL ((["# 已扫描的文件SHA列表 - SiliconFlow Key Scanner",
      "# 每行一个SHA，用于避免重复扫描",
      "# 最后更新时间: " ++ now, ""] ++ shas.sort (· ≤ ·)).map String.data)) =
      (["# 已扫描的文件SHA列表 - SiliconFlow Key Scanner",
      "# 每行一个SHA，用于避免重复扫描",
      "# 最后更新时间: " ++ now, ""] ++ shas.sort (· ≤ ·)).map String.data ++ [[]] :=
    splitLinesAux_joinLinesL _ hnl
  rw [hsplit]
  have k1 : (!(pyStripL "# 已扫描的文件SHA列表 - SiliconFlow Key Scanner".data).isEmpty &&
      !startsHash (pyStripL "# 已扫描的文件SHA列表 - SiliconFlow Key Scanner".data)) = false := by
    decide
  have k2 : (!(pyStripL "# 每行一个SHA，用于避免重复扫描".data).isEmpty &&
      !startsHash (pyStripL "# 每行一个SHA，用于避免重复扫描".data)) = false := by
    decide
  have e3 : ("# 最后更新时间: " ++ now).data = '#' :: (" 最后更新时间: ".data ++ now.data) := by
    rw [String.data_append]; rfl
  have k3 : (!(pyStripL ("# 最后更新时间: " ++ now).data).isEmpty &&
      !startsHash (pyStripL ("# 最后更新时间: " ++ now).data)) = false := by
    rw [e3]; exact keep_hash_false _
  have hmapstrip : ((shas.sort (· ≤ ·)).map String.data).map pyStripL =
      (shas.sort (· ≤ ·)).map String.data := by
    rw [List.map_map]
    apply List.map_congr_left
    intro s hs
    exact ((hclean s) ((Finset.mem_sort _).mp hs)).2.2.1
  have hfiltershas : ((shas.sort (· ≤ ·)).map String.data).filter
      (fun l => !l.isEmpty && !startsHash l) = (shas.sort (· ≤ ·)).map String.data := by
    apply List.filter_eq_self.mpr
    intro a ha
    rcases List.mem_map.mp ha with ⟨s, hs, rfl⟩
    exact keep_clean s (hclean s ((Finset.mem_sort _).mp hs))
  simp only [List.map_append, List.map_cons, List.map_nil, List.filter_append,
    List.filter_cons, List.filter_nil, k1, k2, k3, hmapstrip, hfiltershas]
  simp only [Bool.false_eq_true, if_false, List.nil_append, List.append_nil]
  rw [map_mk_data]
  have k4 : (!(pyStripL ([] : List Char)).isEmpty && !startsHash (pyStripL ([] : List Char))) = false := by
    decide
  simp only [k4, Bool.false_eq_true, if_false, List.map_nil, List.nil_append, List.append_nil]

/-- The sha-file parser never yields a string starting with `#`. -/
theorem parse_no_hash (c : String) (s : String) (hs : s ∈ parse_sha_lines c) :
    startsHash s.data = false := by
  unfold parse_sha_lines at hs
  rcases List.mem_map.mp hs with ⟨l, hl, rfl⟩
  have hk := List.of_mem_filter hl
  simp only [Bool.and_eq_true, Bool.not_eq_true'] at hk
  exact hk.2

/-- Sorting a bucket is invariant under permutation of its input. -/
theorem sortBucket_perm_eq {l l' : List String} (h : l.Perm l') :
    sortBucket l = sortBucket l' :=
  List.eq_of_perm_of_sorted
    ((List.perm_insertionSort _ l).trans (h.trans (List.perm_insertionSort _ l').symm))
    (List.sorted_insertionSort _ l) (List.sorted_insertionSort _ l')

/-! ## Claim theorems -/

/-- C1: an artifact whose file sha is already in the scanned-sha set is
skipped at the very first check of `process_search_result`: the state is
returned unchanged (nothing fetched, nothing extracted, nothing validated,
nothing recorded, sha set and sha file untouched) with the sha-duplicate
outcome, whatever the path blacklist, the fetch oracle and the probe oracle
would have said. -/
theorem sha_duplicate_always_skips (blacklist : List String)
    (fetch : String → Option String) (probe : String → ProbeOutcome)
    (st : ScannerState) (item : SearchItem)
    (h : item.sha ∈ st.scanned_shas) :
    process_search_result blacklist fetch probe st item = (st, .shaDuplicate) := by
  unfold process_search_result
  simp [h]

/-- Witness for C1 at a concrete already-scanned artifact. -/
theorem sha_duplicate_always_skips_witness :
    "s1" ∈ ({ ScannerState.initial with scanned_shas := {"s1"} } : ScannerState).scanned_shas ∧
    process_search_result ["test"] (fun _ => none) (fun _ => .requestError)
        { ScannerState.initial with scanned_shas := {"s1"} }
        ⟨"s1", "src/test/a.py", "https://x/blob/y", "r", "t"⟩ =
      ({ ScannerState.initial with scanned_shas := {"s1"} }, .shaDuplicate) :=
  ⟨by decide,
   sha_duplicate_always_skips ["test"] (fun _ => none) (fun _ => .requestError)
     { ScannerState.initial with scanned_shas := {"s1"} }
     ⟨"s1", "src/test/a.py", "https://x/blob/y", "r", "t"⟩ (by decide)⟩

/-- C2: a probe answered with HTTP 429 classifies the key as valid and
rate-limited, and `validate_and_save_key` routes the finding through the
rate-limited channel of `save_to_files`: the key is appended to the
rate-limited record and the valid-key record is left untouched. -/
theorem probe_429_records_rate_limited (probe : String → ProbeOutcome)
    (st : ScannerState) (key : String)
    (hk : startsWithL "sk-".data key.data = true)
    (hp : probe key = .httpStatus 429) :
    (validate_key key (probe key)).is_valid = true ∧
    (validate_key key (probe key)).rate_limited = true ∧
    save_to_files (validate_key key (probe key)).is_valid
        (validate_key key (probe key)).rate_limited = .rateLimitedChannel ∧
    (validate_and_save_key probe st key).1.recorded_rate_limited =
      st.recorded_rate_limited ++ [key] ∧
    (validate_and_save_key probe st key).1.recorded_valid = st.recorded_valid := by
  refine ⟨?_, ?_, ?_, ?_, ?_⟩ <;>
    simp [validate_and_save_key, validate_key, save_to_files, hp, hk]

/-- Witness for C2 at a concrete key and probe. -/
theorem probe_429_records_rate_limited_witness :
    startsWithL "sk-".data "sk-test".data = true ∧
    (fun (_ : String) => ProbeOutcome.httpStatus 429) "sk-test" = .httpStatus 429 ∧
    ((validate_key "sk-test" ((fun (_ : String) => ProbeOutcome.httpStatus 429) "sk-test")).is_valid = true ∧
     (validate_key "sk-test" ((fun (_ : String) => ProbeOutcome.httpStatus 429) "sk-test")).rate_limited = true ∧
     save_to_files (validate_key "sk-test" ((fun (_ : String) => ProbeOutcome.httpStatus 429) "sk-test")).is_valid
         (validate_key "sk-test" ((fun (_ : String) => ProbeOutcome.httpStatus 429) "sk-test")).rate_limited = .rateLimitedChannel ∧
     (validate_and_save_key (fun _ => .httpStatus 429) ScannerState.initial "sk-test").1.recorded_rate_limited =
       ScannerState.initial.recorded_rate_limited ++ ["sk-test"] ∧
     (validate_and_save_key (fun _ => .httpStatus 429) ScannerState.initial "sk-test").1.recorded_valid =
       ScannerState.initial.recorded_valid) :=
  ⟨by decide, rfl,
   probe_429_records_rate_limited (fun _ => .httpStatus 429) ScannerState.initial
     "sk-test" (by decide) rfl⟩

/-- C5: the scanned-sha set only grows.  Every checkpoint operation
(`add_scanned_sha`, `add_processed_query`, `update_scan_time`, saving) and
the scanner-side `save_scanned_sha` keep every sha that was already
present; no operation removes one. -/
theorem scanned_shas_monotone :
    (∀ (op : CkOp) (cp : Checkpoint) (s : String),
        s ∈ cp.scanned_shas → s ∈ (applyCkOp op cp).scanned_shas) ∧
    (∀ (st : ScannerState) (sha s : String),
        s ∈ st.scanned_shas → s ∈ (save_scanned_sha st sha).scanned_shas) := by
  constructor
  · intro op cp s h
    cases op with
    | addSha sha =>
      simp only [applyCkOp, Checkpoint.add_scanned_sha]
      split
      · exact h
      · exact Finset.mem_insert_of_mem h
    | addQuery q =>
      simp only [applyCkOp, Checkpoint.add_processed_query]
      split
      · exact h
      · exact h
    | touchTime now => exact h
    | saveOp now => exact h
  · intro st sha s h
    exact Finset.mem_insert_of_mem h

/-- Witness for C5 at concrete states: a previously recorded sha survives
both an `add_scanned_sha` of a different sha and a scanner-side
`save_scanned_sha`. -/
theorem scanned_shas_monotone_witness :
    "aa" ∈ ({ scanned_shas := {"aa"} } : Checkpoint).scanned_shas ∧
    "aa" ∈ (applyCkOp (.addSha "bb") { scanned_shas := {"aa"} }).scanned_shas ∧
    "aa" ∈ (save_scanned_sha { ScannerState.initial with scanned_shas := {"aa"} } "bb").scanned_shas :=
  ⟨by decide,
   scanned_shas_monotone.1 (.addSha "bb") { scanned_shas := {"aa"} } "aa" (by decide),
   scanned_shas_monotone.2 { ScannerState.initial with scanned_shas := {"aa"} } "bb" "aa" (by decide)⟩

/-- C7: when the raw-content fetch comes back absent, the artifact is
dropped: its sha is not added to the in-memory set nor to the flat file,
and no key is validated or recorded — so a later pass can retry it. -/
theorem fetch_absent_drops_artifact (blacklist : List String)
    (fetch : String → Option String) (probe : String → ProbeOutcome)
    (st : ScannerState) (item : SearchItem)
    (h : fetch (item.html_url.replace "/blob/" "/raw/") = none) :
    (process_search_result blacklist fetch probe st item).1.scanned_shas = st.scanned_shas ∧
    (process_search_result blacklist fetch probe st item).1.sha_file = st.sha_file ∧
    (process_search_result blacklist fetch probe st item).1.validated_keys = st.validated_keys ∧
    (process_search_result blacklist fetch probe st item).1.recorded_valid = st.recorded_valid ∧
    (process_search_result blacklist fetch probe st item).1.recorded_rate_limited =
      st.recorded_rate_limited := by
  unfold process_search_result
  by_cases h1 : item.sha ∈ st.scanned_shas
  · simp [h1]
  · by_cases h2 : should_skip_file blacklist item.path
    · simp [h1, h2]
    · simp [h1, h2, h]

/-- Witness for C7 with a fetch oracle that always returns absent. -/
theorem fetch_absent_drops_artifact_witness :
    (fun (_ : String) => (none : Option String))
        (SearchItem.html_url ⟨"s2", "a.py", "https://x/blob/y", "r", "t"⟩ |>.replace "/blob/" "/raw/") = none ∧
    (process_search_result [] (fun _ => none) (fun _ => .requestError)
        ScannerState.initial ⟨"s2", "a.py", "https://x/blob/y", "r", "t"⟩).1.scanned_shas =
      ScannerState.initial.scanned_shas :=
  ⟨rfl,
   (fetch_absent_drops_artifact [] (fun _ => none) (fun _ => .requestError)
      ScannerState.initial ⟨"s2", "a.py", "https://x/blob/y", "r", "t"⟩ rfl).1⟩

/-- C8: `extract_api_keys` dedupes within one artifact — the returned
candidate list never contains the same key twice, whatever the content. -/
theorem extract_api_keys_nodup (content : String) :
    (extract_api_keys content).Nodup := by
  unfold extract_api_keys
  split
  · exact List.nodup_nil
  · exact dedupFilter_nodup _ _

/-- C10: a key that does not start with `sk-` is classified invalid (and
not rate-limited) by both validator variants without issuing any network
probe: the result is the early-return dictionary with `probed = false`,
independent of the probe outcome. -/
theorem non_sk_key_rejected_without_probe (key : String) (probe : ProbeOutcome)
    (h : ¬ startsWithL "sk-".data key.data = true) :
    validate_key key probe =
      { is_valid := false, rate_limited := false, probed := false } ∧
    validate_key_sfv key probe = { is_valid := false, probed := false } := by
  constructor <;> simp [validate_key, validate_key_sfv, h]

/-- Witness for C10 at a concrete non-`sk-` key. -/
theorem non_sk_key_rejected_without_probe_witness :
    ¬ startsWithL "sk-".data "AIzaSyB-example".data = true ∧
    validate_key "AIzaSyB-example" (.httpStatus 200) =
      { is_valid := false, rate_limited := false, probed := false } :=
  ⟨by decide,
   (non_sk_key_rejected_without_probe "AIzaSyB-example" (.httpStatus 200) (by decide)).1⟩


/-- C3, counterexample: the source `extract_api_keys` performs no
placeholder suppression at all â on the key-shaped string immediately
followed by `" # YOUR_KEY_HERE"` it returns that key as a candidate, not
the empty set the claim demands. -/
theorem extract_placeholder_counterexample :
    extract_api_keys "sk-ABCDEFGHIJKLMNOPQRSTUVWXYZ0123456789abcdefgh # YOUR_KEY_HERE" =
      ["sk-ABCDEFGHIJKLMNOPQRSTUVWXYZ0123456789abcdefgh"] ∧
    extract_api_keys "sk-ABCDEFGHIJKLMNOPQRSTUVWXYZ0123456789abcdefgh # YOUR_KEY_HERE" ≠
      [] := by
  constructor
  · decide
  · decide

/-- C3, amended: `extract_api_keys` returns exactly one candidate for the
key-shaped string, whether or not it is followed by the placeholder marker
`" # YOUR_KEY_HERE"` — the extractor has no placeholder filter, only the
shape match, the length-25 filter and per-artifact dedup. -/
theorem extract_yields_one_candidate :
    extract_api_keys "sk-ABCDEFGHIJKLMNOPQRSTUVWXYZ0123456789abcdefgh # YOUR_KEY_HERE" =
      ["sk-ABCDEFGHIJKLMNOPQRSTUVWXYZ0123456789abcdefgh"] ∧
    extract_api_keys "sk-ABCDEFGHIJKLMNOPQRSTUVWXYZ0123456789abcdefgh" =
      ["sk-ABCDEFGHIJKLMNOPQRSTUVWXYZ0123456789abcdefgh"] := by
  constructor
  · decide
  · decide

/-- C6, counterexample: `save_checkpoint` is not atomic.  Its observable
trace of file states contains the in-place truncation of `checkpoint.json`
(mode `"w"`, no temporary file, no rename), and a reader loading at that
intermediate state sees a checkpoint that has lost the processed query
`"q"` the saved checkpoint carries. -/
theorem save_not_atomic_counterexample :
    (FsState.mk .unparsable
        (some (save_scanned_shas_content "2025-06-01 12:00:00"
          ({ processed_queries := {"q"} } : Checkpoint).scanned_shas))) ∈
      save_checkpoint_trace "2025-06-01 12:00:00"
        ({ processed_queries := {"q"} } : Checkpoint) ⟨.missing, none⟩ ∧
    "q" ∈ ({ processed_queries := {"q"} } : Checkpoint).processed_queries ∧
    "q" ∉ (load_checkpoint
        (FsState.mk .unparsable
          (some (save_scanned_shas_content "2025-06-01 12:00:00"
            ({ processed_queries := {"q"} } : Checkpoint).scanned_shas)))).processed_queries := by
  refine ⟨?_, ?_, ?_⟩
  · simp [save_checkpoint_trace]
  · decide
  · simp [load_checkpoint]

/-- C6, amended: `save_checkpoint` rewrites both stores in place (truncate,
then write — no temporary location and no atomic replace anywhere in its
write trace), so a reader between the truncation of `checkpoint.json` and
the completed write observes an unparsable checkpoint file whose load
falls back to a fresh checkpoint with an empty processed-query set; only
the final state of the trace is the completed save. -/
theorem save_truncates_in_place (now : String) (cp : Checkpoint) (fs : FsState) :
    (save_checkpoint_trace now cp fs)[3]? =
      some ⟨.unparsable, some (save_scanned_shas_content now cp.scanned_shas)⟩ ∧
    (load_checkpoint
        ⟨.unparsable, some (save_scanned_shas_content now cp.scanned_shas)⟩).processed_queries =
      ∅ ∧
    (save_checkpoint_trace now cp fs).getLast? = some (save_checkpoint now cp) := by
  refine ⟨rfl, ?_, rfl⟩
  simp [load_checkpoint]

/-- C4, counterexample: the checkpoint round-trip is not universal.  A
checkpoint whose scanned-sha set contains the string `"#x"` loses it on
reload: `save_scanned_shas` writes it as the line `#x`, which
`load_scanned_shas` then filters out as a comment line. -/
theorem checkpoint_roundtrip_counterexample :
    "#x" ∈ ({ scanned_shas := {"#x"} } : Checkpoint).scanned_shas ∧
    "#x" ∉ (load_checkpoint (save_checkpoint "2025-01-01 00:00:00"
        { scanned_shas := {"#x"} })).scanned_shas := by
  constructor
  · decide
  · intro hmem
    have hp : "#x" ∈ parse_sha_lines (save_scanned_shas_content "2025-01-01 00:00:00"
        ({ scanned_shas := {"#x"} } : Checkpoint).scanned_shas) := by
      simpa [load_checkpoint, load_scanned_shas, save_checkpoint] using hmem
    exact absurd (parse_no_hash _ _ hp) (by decide)

/-- C4, amended: the checkpoint round-trip `load (save cp)` preserves
membership of the scanned-sha set and of the processed-query set for every
checkpoint whose scanned shas are clean (non-empty, not starting with `#`,
strip-fixed, newline-free — all real file shas are) and whose save
timestamp is newline-free. -/
theorem checkpoint_roundtrip_amended (now : String) (cp : Checkpoint)
    (hnow : '\n' ∉ now.data)
    (hclean : ∀ s ∈ cp.scanned_shas, clean_sha s) :
    (∀ s, s ∈ (load_checkpoint (save_checkpoint now cp)).scanned_shas ↔
      s ∈ cp.scanned_shas) ∧
    (∀ q, q ∈ (load_checkpoint (save_checkpoint now cp)).processed_queries ↔
      q ∈ cp.processed_queries) := by
  constructor
  · intro s
    show s ∈ load_scanned_shas (save_checkpoint now cp) ↔ _
    simp only [load_scanned_shas, save_checkpoint]
    rw [load_save_scanned_shas now cp.scanned_shas hnow hclean]
    rw [Finset.sort_toFinset]
  · intro q
    show q ∈ (Checkpoint.from_dict cp.to_dict).processed_queries ↔ _
    simp only [Checkpoint.from_dict, Checkpoint.to_dict]
    rw [Finset.sort_toFinset]

/-- Witness for the amended C4 at a concrete checkpoint. -/
theorem checkpoint_roundtrip_amended_witness :
    ('\n' ∉ "2025-01-01 00:00:00".data) ∧
    (∀ s ∈ ({ scanned_shas := {"abc123"}, processed_queries := {"sk- in:file"} } :
        Checkpoint).scanned_shas, clean_sha s) ∧
    ((∀ s, s ∈ (load_checkpoint (save_checkpoint "2025-01-01 00:00:00"
          { scanned_shas := {"abc123"}, processed_queries := {"sk- in:file"} })).scanned_shas ↔
        s ∈ ({ scanned_shas := {"abc123"}, processed_queries := {"sk- in:file"} } :
          Checkpoint).scanned_shas) ∧
     (∀ q, q ∈ (load_checkpoint (save_checkpoint "2025-01-01 00:00:00"
          { scanned_shas := {"abc123"}, processed_queries := {"sk- in:file"} })).processed_queries ↔
        q ∈ ({ scanned_shas := {"abc123"}, processed_queries := {"sk- in:file"} } :
          Checkpoint).processed_queries)) :=
  ⟨by decide, by decide,
   checkpoint_roundtrip_amended "2025-01-01 00:00:00"
     { scanned_shas := {"abc123"}, processed_queries := {"sk- in:file"} }
     (by decide) (by decide)⟩

/-- C9: `normalize` is permutation-invariant — two query strings whose
token lists are permutations of one another normalize to the same string.
Determinism and totality hold by construction: `normalize` is a total
computable function on all of `String`, malformed quoting included. -/
theorem normalize_perm_invariant (q q' : String)
    (h : (tokenize q).Perm (tokenize q')) :
    normalize q = normalize q' := by
  unfold normalize
  have hb : ∀ c : TokenClass,
      sortBucket (bucketOf (tokenize q) c) = sortBucket (bucketOf (tokenize q') c) :=
    fun c => sortBucket_perm_eq (h.filter _)
  show " ".intercalate _ = " ".intercalate _
  rw [hb .quotedTok, hb .bareTok, hb .languageTok, hb .filenameTok, hb .pathTok]

/-- Witness for C9 on two concrete reorderings of the same query. -/
theorem normalize_perm_invariant_witness :
    (tokenize "language:py b a").Perm (tokenize "a b language:py") ∧
    normalize "language:py b a" = normalize "a b language:py" :=
  ⟨by decide, normalize_perm_invariant _ _ (by decide)⟩

end SFScan
